import Mathlib

/-!
Verification development for the unified ALSA/JACK terminal patchbay
(`patchbay.py`).  The Python source is shallowly embedded: pure helpers
become Lean functions; calls to external tools (`aconnect`, `jack_lsp`,
`jack_connect`, ...) are modelled by explicit parameters carrying the
outcome of the call; a Python exception that escapes a function is
modelled by `Except.error`.  Machine integers of the source are Python
arbitrary-precision integers, so `Nat`/`Int` model them exactly (selection
indices are provably nonnegative in the source, hence `Nat`; quantities
that can go negative, such as derived row counts, are `Int`).
-/

/-! ## Character-level helpers used to embed the regular expressions of the
source.  Python `\s` inside a single line is modelled by space, tab and
carriage return; `\d` is modelled by ASCII digits. -/

def isPyWs (c : Char) : Bool :=
  c == ' ' || c == '\t' || c == '\r'

/-- Drop an exact literal prefix from a character list, or fail. -/
def dropLit : List Char → List Char → Option (List Char)
  | [], cs => some cs
  | _ :: _, [] => none
  | p :: ps, c :: cs => if c = p then dropLit ps cs else none

/-- Split a character list on a nonempty separator, left to right and
non-overlapping, with fuel for structural recursion (the fuel never runs
out when it starts at the list length plus one). -/
def splitOnFuel (sep : List Char) : Nat → List Char → List Char → List (List Char)
  | 0, rest, acc => [acc.reverse ++ rest]
  | fuel + 1, cs, acc =>
    match cs with
    | [] => [acc.reverse]
    | c :: cs' =>
      match dropLit sep cs with
      | some rest => acc.reverse :: splitOnFuel sep fuel rest []
      | none => splitOnFuel sep fuel cs' (c :: acc)

/-- Python `s.split(sep)` for a nonempty separator (for the empty
separator Python raises; the source never does that). -/
def pySplit (s sep : String) : List String :=
  if sep = "" then [s]
  else (splitOnFuel sep.data (s.data.length + 1) s.data []).map String.mk

/-- Python `s.strip()`. -/
def pyStrip (s : String) : String :=
  String.mk (((s.data.dropWhile Char.isWhitespace).reverse.dropWhile Char.isWhitespace).reverse)

/-- Python `s.rstrip()`. -/
def pyRstrip (s : String) : String :=
  String.mk ((s.data.reverse.dropWhile Char.isWhitespace).reverse)

/-- Python `s.startswith(pre)`. -/
def pyStartsWith (s pre : String) : Bool :=
  (dropLit pre.data s.data).isSome

/-- Python `s.lower()` (ASCII model). -/
def pyLower (s : String) : String :=
  String.mk (s.data.map Char.toLower)

/-- Python `pat in s` (substring test, nonempty `pat`). -/
def containsStr (s pat : String) : Bool :=
  2 ≤ (pySplit s pat).length

def firstSome : List (Option String) → Option String
  | [] => none
  | some a :: _ => some a
  | none :: t => firstSome t

/-! ## ALSA port data and `aconnect` output parsing -/

/-- Data structure for ALSA ports (class `APort`). -/
structure APort where
  client : String
  port : String
  name : String
deriving DecidableEq

/-- Source `APort.id`: the port identifier, format `client:port`. -/
def APort.id (p : APort) : String :=
  p.client ++ ":" ++ p.port

/-- Source `APort.display`: display string combining the ID and the port name. -/
def APort.display (p : APort) : String :=
  p.id ++ "  " ++ p.name

/-- Embeds `re.match(r"client\s+(\d+):\s+'([^']+)'", line)`, returning
group 1 (the client number). -/
def matchClientHeaderFull (line : String) : Option String :=
  match dropLit "client".data line.data with
  | none => none
  | some r1 =>
    let (ws1, r2) := r1.span isPyWs
    if ws1.isEmpty then none else
    let (ds, r3) := r2.span Char.isDigit
    if ds.isEmpty then none else
    match r3 with
    | ':' :: r4 =>
      let (ws2, r5) := r4.span isPyWs
      if ws2.isEmpty then none else
      match r5 with
      | '\'' :: r6 =>
        let (nm, r7) := r6.span (fun c => c != '\'')
        if nm.isEmpty then none else
        match r7 with
        | '\'' :: _ => some (String.mk ds)
        | _ => none
      | _ => none
    | _ => none

/-- Embeds `re.match(r"^\s*\d+", line)` as a Boolean test. -/
def startsWsDigit (line : String) : Bool :=
  match (line.data.span isPyWs).2 with
  | c :: _ => c.isDigit
  | [] => false

/-- Embeds `re.match(r"\s*(\d+)\s+'([^']+)'", line)`, returning groups
(port number, port name). -/
def matchPortLine (line : String) : Option (String × String) :=
  let (_, r1) := line.data.span isPyWs
  let (ds, r2) := r1.span Char.isDigit
  if ds.isEmpty then none else
  let (ws, r3) := r2.span isPyWs
  if ws.isEmpty then none else
  match r3 with
  | '\'' :: r4 =>
    let (nm, r5) := r4.span (fun c => c != '\'')
    if nm.isEmpty then none else
    match r5 with
    | '\'' :: _ => some (String.mk ds, String.mk nm)
    | _ => none
  | _ => none

/-- Source `parse_aconnect_output`: parse output from `aconnect -i` / `aconnect -o`
into a list of `APort`.  Python `splitlines` is modelled by splitting on
newline; the parse skips unusable lines exactly as the source does. -/
def parse_aconnect_output (output : String) : List APort :=
  let step := fun (st : Option String × List APort) (line0 : String) =>
    let current_client := st.1
    let ports := st.2
    let line := pyRstrip line0
    if pyStartsWith line "client" then
      match matchClientHeaderFull line with
      | some c => (some c, ports)
      | none => (current_client, ports)
    else if startsWsDigit line then
      match matchPortLine line with
      | some (num, nm) =>
        match current_client with
        | some c => (current_client, ports ++ [⟨c, num, nm⟩])
        | none => (current_client, ports)
      | none => (current_client, ports)
    else (current_client, ports)
  ((pySplit output "\n").foldl step (none, [])).2

/-- Source `get_alsa_ports(direction)`: list of `APort` for ALSA.  The result of
`subprocess.check_output(["aconnect", direction])` is the `fetch`
parameter; `Except.error` models any raised exception, which the source
catches with `except Exception: return []`. -/
def get_alsa_ports (direction : String) (fetch : Except String String) : List APort :=
  match fetch with
  | .ok output => parse_aconnect_output output
  | .error _ => []

/-! ## JACK port listing -/

/-- Order-preserving deduplication (`unique` inside `get_jack_ports`). -/
def uniqueStrs : List String → List String → List String
  | _, [] => []
  | seen, x :: xs =>
    if seen.contains x then uniqueStrs seen xs
    else x :: uniqueStrs (x :: seen) xs

/-- Source `get_jack_ports`: tuple `(jack_outputs, jack_inputs)` from `jack_lsp`
output; classification by substring of the lowercased name; any raised
exception yields `([], [])`. -/
def get_jack_ports (fetch : Except String String) : List String × List String :=
  match fetch with
  | .error _ => ([], [])
  | .ok out =>
    let port_list := ((pySplit out "\n").map pyStrip).filter (fun l => l ≠ "")
    let step := fun (st : List String × List String) (port : String) =>
      let lower := pyLower port
      if containsStr lower "capture" || containsStr lower "input" then
        (st.1, st.2 ++ [port])
      else if containsStr lower "playback" || containsStr lower "output" then
        (st.1 ++ [port], st.2)
      else
        (st.1 ++ [port], st.2 ++ [port])
    let (outputs, inputs) := port_list.foldl step ([], [])
    (uniqueStrs [] outputs, uniqueStrs [] inputs)

/-! ## Unified catalog -/

/-- One entry of the unified port lists: the tuple
`(display_string, port_type, connection_id)` of the source. -/
structure PortEntry where
  display : String
  ptype : String
  cid : String
deriving DecidableEq

/-- Source `get_all_input_ports`: ALSA `-i` ports then JACK input ports. -/
def get_all_input_ports (alsaFetch jackFetch : Except String String) : List PortEntry :=
  ((get_alsa_ports "-i" alsaFetch).map fun p => ⟨p.display, "ALSA", p.id⟩) ++
    ((get_jack_ports jackFetch).2.map fun port => ⟨port, "JACK", port⟩)

/-- Source `get_all_output_ports`: ALSA `-o` ports then JACK output ports. -/
def get_all_output_ports (alsaFetch jackFetch : Except String String) : List PortEntry :=
  ((get_alsa_ports "-o" alsaFetch).map fun p => ⟨p.display, "ALSA", p.id⟩) ++
    ((get_jack_ports jackFetch).1.map fun port => ⟨port, "JACK", port⟩)

/-! ## Active-connection listing -/

/-- Embeds `re.match(r"client\s+(\d+):", stripped)`, returning the client
number. -/
def matchClientNum (line : String) : Option String :=
  match dropLit "client".data line.data with
  | none => none
  | some r1 =>
    let (ws1, r2) := r1.span isPyWs
    if ws1.isEmpty then none else
    let (ds, r3) := r2.span Char.isDigit
    if ds.isEmpty then none else
    match r3 with
    | ':' :: _ => some (String.mk ds)
    | _ => none

/-- Embeds `re.match(r"^(\d+)\s+'", stripped)`, returning the port
number. -/
def matchActivePortNum (line : String) : Option String :=
  let (ds, r1) := line.data.span Char.isDigit
  if ds.isEmpty then none else
  let (ws, r2) := r1.span isPyWs
  if ws.isEmpty then none else
  match r2 with
  | '\'' :: _ => some (String.mk ds)
  | _ => none

/-- Parse `\s*(\d+:\d+)` at the start of `rest` (the tail of a
`re.search` pattern), returning the captured `digits:digits`. -/
def matchConnTarget (rest : String) : Option String :=
  let (_, r1) := rest.data.span isPyWs
  let (d1, r2) := r1.span Char.isDigit
  if d1.isEmpty then none else
  match r2 with
  | ':' :: r3 =>
    let (d2, _) := r3.span Char.isDigit
    if d2.isEmpty then none else some (String.mk d1 ++ ":" ++ String.mk d2)
  | _ => none

/-- Embeds `re.search(pat ++ r"\s*(\d+:\d+)", line)` for a literal `pat`:
try the target pattern after each occurrence of the literal, first match
wins. -/
def searchConn (line pat : String) : Option String :=
  match pySplit line pat with
  | [] => none
  | _ :: rests => firstSome (rests.map matchConnTarget)

/-- Source `get_active_connections_alsa`: parse `aconnect -l` into connection
strings like `"16:0 -> 128:0"`; any raised exception yields `[]`. -/
def get_active_connections_alsa (fetch : Except String String) : List String :=
  match fetch with
  | .error _ => []
  | .ok output =>
    let step := fun (st : Option String × Option String × List String) (line : String) =>
      let current_client := st.1
      let current_port := st.2.1
      let connections := st.2.2
      let stripped := pyStrip line
      if pyStartsWith stripped "client" then
        match matchClientNum stripped with
        | some c => (some c, none, connections)
        | none => (current_client, none, connections)
      else if (matchActivePortNum stripped).isSome then
        (current_client, matchActivePortNum stripped, connections)
      else if containsStr line "Connecting To:" then
        match searchConn line "Connecting To:" with
        | some target =>
          match current_client, current_port with
          | some c, some p =>
            let conn := c ++ ":" ++ p ++ " -> " ++ target
            (current_client, current_port,
              if connections.contains conn then connections else connections ++ [conn])
          | _, _ => (current_client, current_port, connections)
        | none => (current_client, current_port, connections)
      else if containsStr line "Connected From:" then
        match searchConn line "Connected From:" with
        | some target =>
          match current_client, current_port with
          | some c, some p =>
            let conn := target ++ " -> " ++ (c ++ ":" ++ p)
            (current_client, current_port,
              if connections.contains conn then connections else connections ++ [conn])
          | _, _ => (current_client, current_port, connections)
        | none => (current_client, current_port, connections)
      else (current_client, current_port, connections)
    ((pySplit output "\n").foldl step (none, none, [])).2.2

/-- Source `get_active_connections_jack`: parse `jack_lsp --connections` output
(unindented line = source, indented lines = destinations); any raised
exception yields `[]`. -/
def get_active_connections_jack (fetch : Except String String) : List String :=
  match fetch with
  | .error _ => []
  | .ok output =>
    let step := fun (st : Option String × List String) (line : String) =>
      let current_source := st.1
      let connections := st.2
      if line ≠ "" ∧ ¬ pyStartsWith line " " then
        (some (pyStrip line), connections)
      else if pyStartsWith line " " ∧ current_source.isSome then
        let dest := pyStrip line
        match current_source with
        | some src =>
          if dest ≠ "" then (current_source, connections ++ [src ++ " -> " ++ dest])
          else (current_source, connections)
        | none => (current_source, connections)
      else (current_source, connections)
    ((pySplit output "\n").foldl step (none, [])).2

/-- Source `get_all_active_connections`: ALSA connections then JACK connections. -/
def get_all_active_connections (alsaFetch jackFetch : Except String String) : List String :=
  get_active_connections_alsa alsaFetch ++ get_active_connections_jack jackFetch

/-! ## Mutating backend adapters

`subprocess.check_call` on a mutating tool either succeeds, raises
`CalledProcessError` (tool ran, non-zero exit) or raises some other
exception (for example `FileNotFoundError` when the tool is missing).
The source catches only `CalledProcessError`; any other exception
escapes, which `Except.error` models. -/

inductive ToolOutcome where
  | success
  | calledProcessError (e : String)
  | otherError (e : String)
deriving DecidableEq

/-- Source `alsa_connect`: connect two ALSA ports using `aconnect`. -/
def alsa_connect (o : ToolOutcome) (src dst : String) : Except String (Bool × String) :=
  match o with
  | .success => .ok (true, "Connected (ALSA).")
  | .calledProcessError e => .ok (false, "ALSA connect error: " ++ e)
  | .otherError e => .error e

/-- Source `alsa_disconnect`: disconnect two ALSA ports using `aconnect -d`. -/
def alsa_disconnect (o : ToolOutcome) (src dst : String) : Except String (Bool × String) :=
  match o with
  | .success => .ok (true, "Disconnected (ALSA).")
  | .calledProcessError e => .ok (false, "ALSA disconnect error: " ++ e)
  | .otherError e => .error e

/-- Source `jack_connect`: connect two JACK ports using `jack_connect`. -/
def jack_connect (o : ToolOutcome) (src dst : String) : Except String (Bool × String) :=
  match o with
  | .success => .ok (true, "Connected (JACK).")
  | .calledProcessError e => .ok (false, "JACK connect error: " ++ e)
  | .otherError e => .error e

/-- Source `jack_disconnect`: disconnect two JACK ports using `jack_disconnect`. -/
def jack_disconnect (o : ToolOutcome) (src dst : String) : Except String (Bool × String) :=
  match o with
  | .success => .ok (true, "Disconnected (JACK).")
  | .calledProcessError e => .ok (false, "JACK disconnect error: " ++ e)
  | .otherError e => .error e

/-- A backend invocation: which external mutating command is run and with
which two identifiers. -/
inductive Call where
  | alsaConnect (src dst : String)
  | jackConnect (src dst : String)
  | alsaDisconnect (src dst : String)
  | jackDisconnect (src dst : String)
deriving DecidableEq

/-- The arguments of a backend invocation. -/
def callArgs : Call → String × String
  | .alsaConnect s d => (s, d)
  | .jackConnect s d => (s, d)
  | .alsaDisconnect s d => (s, d)
  | .jackDisconnect s d => (s, d)

/-- The external world, assigning an outcome to every possible backend
invocation. -/
def World : Type := Call → ToolOutcome

/-- A world where every external tool succeeds. -/
def wOk : World := fun _ => ToolOutcome.success

/-- Embeds `re.match(r"^\d+:\d+$", src)`: the ALSA-style `digits:digits`
shape. -/
def isAlsaStyle (s : String) : Bool :=
  let (d1, r1) := s.data.span Char.isDigit
  if d1.isEmpty then false else
  match r1 with
  | ':' :: r2 =>
    let (d2, r3) := r2.span Char.isDigit
    (!d2.isEmpty) && r3.isEmpty
  | _ => false

/-- Source `disconnect_connection`: given a connection string `"src -> dst"`,
choose ALSA or JACK based on the source format.  Returns the value the
Python function returns (or the exception it lets escape) together with
the list of backend invocations it performed. -/
def disconnect_connection (w : World) (conn_line : String) :
    Except String (Bool × String) × List Call :=
  match pySplit conn_line "->" with
  | [part0, part1] =>
    let src := pyStrip part0
    let dst := pyStrip part1
    if isAlsaStyle src then
      (alsa_disconnect (w (Call.alsaDisconnect src dst)) src dst, [Call.alsaDisconnect src dst])
    else
      (jack_disconnect (w (Call.jackDisconnect src dst)) src dst, [Call.jackDisconnect src dst])
  | _ => (Except.ok (false, "Invalid connection format."), [])

/-! ## The interaction loop (`main`)

One iteration of the `while True` loop is `tick`.  The curses cell
drawing is out of scope; what the loop body does to the program state is
(1) compute the panel geometry from the terminal height, (2) update the
three scroll offsets against the current selections, (3) read one key
and dispatch on it.  Key codes are the integers `curses` delivers. -/

/-- Focus cycles over the three panels (`focus` string of the source). -/
inductive Focus where
  | input
  | output
  | active
deriving DecidableEq

/-- The mutable state of the loop: status line, focus, the three
selection indices and the three scroll offsets. -/
structure UIState where
  status : String
  focus : Focus
  sel_input : Nat
  sel_output : Nat
  sel_active : Nat
  offset_input : Int
  offset_output : Int
  offset_active : Int
deriving DecidableEq

/-- State at program start. -/
def initState : UIState :=
  { status := "Welcome to the unified patchbay!"
    focus := Focus.input
    sel_input := 0, sel_output := 0, sel_active := 0
    offset_input := 0, offset_output := 0, offset_active := 0 }

/-- Source `bottom_panel_height = 8 if height >= 16 else max(3, height // 3)`. -/
def bottom_panel_height (height : Nat) : Nat :=
  if 16 ≤ height then 8 else max 3 (height / 3)

/-- The scroll-offset update performed for each panel during drawing:
pull the offset up to the selection if the selection fell above the
window, push it down to `sel - rows + 1` if the selection fell below,
otherwise leave it. -/
def scroll_adjust (sel offset rows : Int) : Int :=
  if sel < offset then sel
  else if offset + rows ≤ sel then sel - rows + 1
  else offset

/-- The state changes of the drawing phase of one loop iteration: the
three scroll offsets are updated against the current selections using
the geometry derived from the terminal height. -/
def renderPhase (height : Nat) (s : UIState) : UIState :=
  let bph : Int := (bottom_panel_height height : Int)
  let patchbay_height : Int := (height : Int) - bph - 1
  let patchbay_list_rows : Int := patchbay_height - 2
  let active_list_rows : Int := (height : Int) - (patchbay_height + 2) - 1
  { s with
    offset_input := scroll_adjust (s.sel_input : Int) s.offset_input patchbay_list_rows
    offset_output := scroll_adjust (s.sel_output : Int) s.offset_output patchbay_list_rows
    offset_active := scroll_adjust (s.sel_active : Int) s.offset_active active_list_rows }

/-- Key codes used by the dispatch (`ord` values and curses codes). -/
def key_q : Nat := 'q'.toNat
def key_r : Nat := 'r'.toNat
def key_tab : Nat := 9
def KEY_UP : Nat := 259
def KEY_DOWN : Nat := 258
def key_c : Nat := 'c'.toNat
def key_d : Nat := 'd'.toNat

/-- The loop either continues with a new state or leaves the loop
(`break` on `q`). -/
inductive TickOut where
  | quit (s : UIState)
  | cont (s : UIState)
deriving DecidableEq

/-- TAB focus rotation. -/
def nextFocus : Focus → Focus
  | Focus.input => Focus.output
  | Focus.output => Focus.active
  | Focus.active => Focus.input

/-- The `KEY_UP` branch of the dispatch: decrement the focused panel's
selection if it is positive, else change nothing. -/
def navUp (s : UIState) : UIState :=
  if s.focus = Focus.input ∧ 0 < s.sel_input then { s with sel_input := s.sel_input - 1 }
  else if s.focus = Focus.output ∧ 0 < s.sel_output then { s with sel_output := s.sel_output - 1 }
  else if s.focus = Focus.active ∧ 0 < s.sel_active then { s with sel_active := s.sel_active - 1 }
  else s

/-- The `KEY_DOWN` branch of the dispatch: increment the focused panel's
selection if it is below the focused list's last index, else change
nothing. -/
def navDown (input_ports output_ports : List PortEntry) (active_conns : List String)
    (s : UIState) : UIState :=
  if s.focus = Focus.input ∧ s.sel_input < input_ports.length - 1 then
    { s with sel_input := s.sel_input + 1 }
  else if s.focus = Focus.output ∧ s.sel_output < output_ports.length - 1 then
    { s with sel_output := s.sel_output + 1 }
  else if s.focus = Focus.active ∧ s.sel_active < active_conns.length - 1 then
    { s with sel_active := s.sel_active + 1 }
  else s

/-- The `c` branch of the dispatch. -/
def connect_action (w : World) (input_ports output_ports : List PortEntry) (s : UIState) :
    Except String TickOut × List Call :=
  if s.focus = Focus.input ∨ s.focus = Focus.output then
    if input_ports = [] ∨ output_ports = [] then
      (.ok (.cont { s with status := "No ports available for connection." }), [])
    else
      match input_ports.get? s.sel_input with
      | none => (.error "IndexError", [])
      | some inp =>
        match output_ports.get? s.sel_output with
        | none => (.error "IndexError", [])
        | some outp =>
          if inp.ptype ≠ outp.ptype then
            (.ok (.cont { s with status := "Cannot connect ports of different types." }), [])
          else if inp.ptype = "ALSA" then
            match alsa_connect (w (Call.alsaConnect inp.cid outp.cid)) inp.cid outp.cid with
            | .ok (_, msg) => (.ok (.cont { s with status := msg }),
                [Call.alsaConnect inp.cid outp.cid])
            | .error e => (.error e, [Call.alsaConnect inp.cid outp.cid])
          else
            match jack_connect (w (Call.jackConnect inp.cid outp.cid)) inp.cid outp.cid with
            | .ok (_, msg) => (.ok (.cont { s with status := msg }),
                [Call.jackConnect inp.cid outp.cid])
            | .error e => (.error e, [Call.jackConnect inp.cid outp.cid])
  else
    (.ok (.cont { s with status := "Cannot connect when active connections panel is focused." }), [])

/-- The `d` branch of the dispatch. -/
def disconnect_action (w : World) (input_ports output_ports : List PortEntry)
    (active_conns : List String) (s : UIState) : Except String TickOut × List Call :=
  if s.focus = Focus.active then
    if active_conns = [] then
      (.ok (.cont { s with status := "No active connections to disconnect." }), [])
    else
      match active_conns.get? s.sel_active with
      | none => (.error "IndexError", [])
      | some conn_line =>
        match disconnect_connection w conn_line with
        | (.error e, calls) => (.error e, calls)
        | (.ok (_, msg), calls) =>
          let s1 := { s with status := msg }
          let s2 := if active_conns.length - 1 ≤ s1.sel_active then
              { s1 with sel_active := active_conns.length - 2 }
            else s1
          (.ok (.cont s2), calls)
  else
    if input_ports = [] ∨ output_ports = [] then
      (.ok (.cont { s with status := "No ports available for disconnection." }), [])
    else
      match input_ports.get? s.sel_input with
      | none => (.error "IndexError", [])
      | some inp =>
        match output_ports.get? s.sel_output with
        | none => (.error "IndexError", [])
        | some outp =>
          if inp.ptype ≠ outp.ptype then
            (.ok (.cont { s with status := "Cannot disconnect ports of different types." }), [])
          else if inp.ptype = "ALSA" then
            match alsa_disconnect (w (Call.alsaDisconnect inp.cid outp.cid)) inp.cid outp.cid with
            | .ok (_, msg) => (.ok (.cont { s with status := msg }),
                [Call.alsaDisconnect inp.cid outp.cid])
            | .error e => (.error e, [Call.alsaDisconnect inp.cid outp.cid])
          else
            match jack_disconnect (w (Call.jackDisconnect inp.cid outp.cid)) inp.cid outp.cid with
            | .ok (_, msg) => (.ok (.cont { s with status := msg }),
                [Call.jackDisconnect inp.cid outp.cid])
            | .error e => (.error e, [Call.jackDisconnect inp.cid outp.cid])

/-- The key dispatch of the loop body, acting on the state left by the
drawing phase.  `input_ports`, `output_ports` and `active_conns` are the
lists fetched by this iteration's catalog rebuild.  The result is the
continuation (or the exception that escapes, such as the `IndexError`
of an out-of-range selection) together with the backend invocations
made. -/
def handleKey (w : World) (input_ports output_ports : List PortEntry)
    (active_conns : List String) (key : Nat) (s : UIState) :
    Except String TickOut × List Call :=
  if key = key_q then (.ok (.quit s), [])
  else if key = key_r then (.ok (.cont { s with status := "Views refreshed." }), [])
  else if key = key_tab then (.ok (.cont { s with focus := nextFocus s.focus }), [])
  else if key = KEY_UP then (.ok (.cont (navUp s)), [])
  else if key = KEY_DOWN then (.ok (.cont (navDown input_ports output_ports active_conns s)), [])
  else if key = key_c then connect_action w input_ports output_ports s
  else if key = key_d then disconnect_action w input_ports output_ports active_conns s
  else
    (.ok (.cont { s with status := "Key " ++ toString key ++ " pressed." }), [])

deriving instance DecidableEq for Except

/-- One full iteration of the interaction loop: scroll-offset updates of
the drawing phase, then the key dispatch against this iteration's
freshly fetched lists. -/
def tick (w : World) (height : Nat) (input_ports output_ports : List PortEntry)
    (active_conns : List String) (key : Nat) (s : UIState) :
    Except String TickOut × List Call :=
  handleKey w input_ports output_ports active_conns key (renderPhase height s)

/-- Everything the environment supplies to one iteration: the terminal
height, the raw results of the six external listing calls, the key, and
the outcomes of any mutating calls. -/
structure TickEnv where
  height : Nat
  alsaIn : Except String String
  alsaOut : Except String String
  jackLspIn : Except String String
  jackLspOut : Except String String
  alsaList : Except String String
  jackConn : Except String String
  key : Nat
  world : World

/-- The input-port list an iteration under `env` rebuilds. -/
def envInputs (env : TickEnv) : List PortEntry :=
  get_all_input_ports env.alsaIn env.jackLspIn

/-- The output-port list an iteration under `env` rebuilds. -/
def envOutputs (env : TickEnv) : List PortEntry :=
  get_all_output_ports env.alsaOut env.jackLspOut

/-- The active-connection list an iteration under `env` rebuilds. -/
def envActive (env : TickEnv) : List String :=
  get_all_active_connections env.alsaList env.jackConn

/-- One loop iteration driven by an environment. -/
def tickEnv (env : TickEnv) (s : UIState) : Except String TickOut × List Call :=
  tick env.world env.height (envInputs env) (envOutputs env) (envActive env) env.key s

/-- The states the interaction loop can be in at the top of an
iteration, for some sequence of environments. -/
inductive Reachable : UIState → Prop
  | init : Reachable initState
  | step (env : TickEnv) (s s' : UIState) (calls : List Call) :
      Reachable s → tickEnv env s = (.ok (.cont s'), calls) → Reachable s'

/-! ## Helper notions for the statements -/

/-- The focused panel's selection index. -/
def selOf (s : UIState) : Focus → Nat
  | Focus.input => s.sel_input
  | Focus.output => s.sel_output
  | Focus.active => s.sel_active

/-- The focused panel's list length. -/
def lenOf (ip op : List PortEntry) (ac : List String) : Focus → Nat
  | Focus.input => ip.length
  | Focus.output => op.length
  | Focus.active => ac.length

/-- Concrete ports used by witnesses. -/
def pA : PortEntry := ⟨"16:0  A", "ALSA", "16:0"⟩
def pB : PortEntry := ⟨"128:0  B", "ALSA", "128:0"⟩
def pJ : PortEntry := ⟨"system:capture_1", "JACK", "system:capture_1"⟩

/-- Three-element input list of the navigation scenario. -/
def demo3 : List PortEntry := [⟨"i1", "ALSA", "1:0"⟩, ⟨"i2", "ALSA", "1:1"⟩, ⟨"i3", "ALSA", "1:2"⟩]

/-- Two-element output list of the navigation scenario. -/
def demo2 : List PortEntry := [⟨"o1", "ALSA", "2:0"⟩, ⟨"o2", "ALSA", "2:1"⟩]

/-- Source `aconnect` output listing two ports of client 16. -/
def aconnTwo : String := "client 16: 'A'\n    0 'p0'\n    1 'p1'"

/-- Source `aconnect` output listing one port of client 16. -/
def aconnOne : String := "client 16: 'A'\n    0 'p0'"

/-- An environment whose ALSA tool reports two ports; the user presses
DOWN. -/
def envGrow : TickEnv :=
  { height := 24, alsaIn := .ok aconnTwo, alsaOut := .ok aconnTwo,
    jackLspIn := .error "jack", jackLspOut := .error "jack",
    alsaList := .error "alsa", jackConn := .error "jack", key := KEY_DOWN, world := wOk }

/-- An environment whose ALSA tool now reports only one port; the user
presses `c`. -/
def envShrunk : TickEnv :=
  { height := 24, alsaIn := .ok aconnOne, alsaOut := .ok aconnOne,
    jackLspIn := .error "jack", jackLspOut := .error "jack",
    alsaList := .error "alsa", jackConn := .error "jack", key := key_c, world := wOk }

/-- The state after one DOWN on the two-port catalog. -/
def stateAfterDown : UIState := { initState with sel_input := 1 }

/-- Dispatch reduction: a `c` press runs `connect_action` on the state
left by the drawing phase. -/
theorem tick_c_eq (w : World) (h : Nat) (ip op : List PortEntry) (ac : List String)
    (s : UIState) : tick w h ip op ac key_c s = connect_action w ip op (renderPhase h s) := rfl

/-- Dispatch reduction: a `d` press runs `disconnect_action` on the state
left by the drawing phase. -/
theorem tick_d_eq (w : World) (h : Nat) (ip op : List PortEntry) (ac : List String)
    (s : UIState) :
    tick w h ip op ac key_d s = disconnect_action w ip op ac (renderPhase h s) := rfl

/-- Dispatch reduction for `KEY_UP`. -/
theorem tick_up_eq (w : World) (h : Nat) (ip op : List PortEntry) (ac : List String)
    (s : UIState) : tick w h ip op ac KEY_UP s = (.ok (.cont (navUp (renderPhase h s))), []) := rfl

/-- Dispatch reduction for `KEY_DOWN`. -/
theorem tick_down_eq (w : World) (h : Nat) (ip op : List PortEntry) (ac : List String)
    (s : UIState) :
    tick w h ip op ac KEY_DOWN s = (.ok (.cont (navDown ip op ac (renderPhase h s))), []) := rfl

/-- The drawing phase only rewrites scroll offsets. -/
theorem renderPhase_parts (h : Nat) (s : UIState) :
    (renderPhase h s).status = s.status ∧ (renderPhase h s).focus = s.focus ∧
    (renderPhase h s).sel_input = s.sel_input ∧ (renderPhase h s).sel_output = s.sel_output ∧
    (renderPhase h s).sel_active = s.sel_active :=
  ⟨rfl, rfl, rfl, rfl, rfl⟩

/-! ## The claims -/

/-- C9: for every terminal height below the tall-enough threshold (16
rows), the bottom active-connections panel's height is `max 3 (h / 3)`
rows; for every height at or above the threshold it is the fixed
constant 8. -/
theorem C9_bottom_panel (h : Nat) :
    (h < 16 → bottom_panel_height h = max 3 (h / 3)) ∧
    (16 ≤ h → bottom_panel_height h = 8) := by
  unfold bottom_panel_height
  constructor
  · intro hh
    rw [if_neg (by omega)]
  · intro hh
    rw [if_pos hh]

/-- Witness for C9 at heights 10 and 24. -/
theorem C9_bottom_panel_witness :
    bottom_panel_height 10 = max 3 (10 / 3) ∧ bottom_panel_height 24 = 8 :=
  ⟨(C9_bottom_panel 10).1 (by decide), (C9_bottom_panel 24).2 (by decide)⟩

/-- C8: every listing operation turns any exception of the underlying
tool invocation (tool missing, non-zero exit, undecodable output) into
an empty sequence instead of letting it escape, so the catalog rebuild
always completes; unusable output likewise parses to nothing rather
than failing (shown on a concrete garbage output). -/
theorem C8_listing_failures (e1 e2 e3 e4 e5 : String) :
    get_alsa_ports "-i" (.error e1) = [] ∧
    get_alsa_ports "-o" (.error e2) = [] ∧
    get_jack_ports (.error e3) = ([], []) ∧
    get_active_connections_alsa (.error e4) = [] ∧
    get_active_connections_jack (.error e5) = [] ∧
    get_all_input_ports (.error e1) (.error e3) = [] ∧
    get_all_output_ports (.error e2) (.error e3) = [] ∧
    get_all_active_connections (.error e4) (.error e5) = [] ∧
    get_alsa_ports "-i" (.ok "no such tool output @@") = [] ∧
    get_active_connections_alsa (.ok "no such tool output @@") = [] :=
  ⟨rfl, rfl, rfl, rfl, rfl, rfl, rfl, rfl, by decide, by decide⟩

/-- Witness for C8 (its hypotheses are the universally quantified
messages; instantiated at concrete strings). -/
theorem C8_listing_failures_witness :
    get_alsa_ports "-i" (.error "FileNotFoundError: aconnect") = [] :=
  (C8_listing_failures "FileNotFoundError: aconnect" "x" "x" "x" "x").1

/-- C2 fails as stated: a missing tool makes the mutating adapters raise
(`FileNotFoundError` is not `CalledProcessError`, the only exception the
source catches), so they do not return `(false, message)` for every
failure of the underlying tool. -/
theorem C2_counterexample :
    ¬ (∀ (o : ToolOutcome) (src dst : String),
        (∃ p, alsa_connect o src dst = Except.ok p) ∧
        (∃ p, alsa_disconnect o src dst = Except.ok p) ∧
        (∃ p, jack_connect o src dst = Except.ok p) ∧
        (∃ p, jack_disconnect o src dst = Except.ok p)) := by
  intro hclaim
  obtain ⟨⟨p, hp⟩, -, -, -⟩ :=
    hclaim (ToolOutcome.otherError "FileNotFoundError: aconnect") "16:0" "128:0"
  simp [alsa_connect] at hp

/-- C2 amended: the four mutating operations return `(true, message)` on
success and `(false, human-readable message)` when the tool runs and
exits non-zero (`CalledProcessError`); any other exception — for
example a missing tool — is not caught and propagates to the caller. -/
theorem C2_amended_mutating (src dst e : String) :
    alsa_connect ToolOutcome.success src dst = .ok (true, "Connected (ALSA).") ∧
    alsa_connect (ToolOutcome.calledProcessError e) src dst =
      .ok (false, "ALSA connect error: " ++ e) ∧
    alsa_disconnect ToolOutcome.success src dst = .ok (true, "Disconnected (ALSA).") ∧
    alsa_disconnect (ToolOutcome.calledProcessError e) src dst =
      .ok (false, "ALSA disconnect error: " ++ e) ∧
    jack_connect ToolOutcome.success src dst = .ok (true, "Connected (JACK).") ∧
    jack_connect (ToolOutcome.calledProcessError e) src dst =
      .ok (false, "JACK connect error: " ++ e) ∧
    jack_disconnect ToolOutcome.success src dst = .ok (true, "Disconnected (JACK).") ∧
    jack_disconnect (ToolOutcome.calledProcessError e) src dst =
      .ok (false, "JACK disconnect error: " ++ e) ∧
    alsa_connect (ToolOutcome.otherError e) src dst = .error e ∧
    jack_disconnect (ToolOutcome.otherError e) src dst = .error e :=
  ⟨rfl, rfl, rfl, rfl, rfl, rfl, rfl, rfl, rfl, rfl⟩

/-- C10: a connection label that does not split on the separator token
into exactly two parts makes the active-panel disconnect return
`(false, "Invalid connection format.")` with no backend call. -/
theorem C10_invalid_format (w : World) (conn : String)
    (hsplit : (pySplit conn "->").length ≠ 2) :
    disconnect_connection w conn = (.ok (false, "Invalid connection format."), []) := by
  unfold disconnect_connection
  split
  · rename_i part0 part1 heq
    rw [heq] at hsplit
    simp at hsplit
  · rfl

/-- Witness for C10: a JACK-style label containing the separator twice
splits into three parts. -/
theorem C10_invalid_format_witness :
    (pySplit "16:0 -> 128:0 -> 1:2" "->").length ≠ 2 ∧
    disconnect_connection wOk "16:0 -> 128:0 -> 1:2" =
      (.ok (false, "Invalid connection format."), []) :=
  ⟨by decide, C10_invalid_format wOk "16:0 -> 128:0 -> 1:2" (by decide)⟩

/-- For any height of at least 7 rows, the bottom panel takes at least
3 rows and leaves at least one visible row to both the patchbay lists
and the active list. -/
theorem bottom_panel_height_bounds (h : Nat) (hh : 7 ≤ h) :
    3 ≤ bottom_panel_height h ∧ (bottom_panel_height h : Int) ≤ (h : Int) - 4 := by
  unfold bottom_panel_height
  split
  · constructor
    · omega
    · push_cast
      omega
  · rw [Nat.max_def]
    split
    · constructor
      · omega
      · push_cast
        omega
    · constructor
      · omega
      · push_cast
        omega

/-- The scroll offsets the drawing phase writes, as `scroll_adjust`
applications. -/
theorem renderPhase_offsets (h : Nat) (s : UIState) :
    (renderPhase h s).offset_input =
      scroll_adjust (s.sel_input : Int) s.offset_input
        ((h : Int) - bottom_panel_height h - 1 - 2) ∧
    (renderPhase h s).offset_output =
      scroll_adjust (s.sel_output : Int) s.offset_output
        ((h : Int) - bottom_panel_height h - 1 - 2) ∧
    (renderPhase h s).offset_active =
      scroll_adjust (s.sel_active : Int) s.offset_active
        ((h : Int) - ((h : Int) - bottom_panel_height h - 1 + 2) - 1) :=
  ⟨rfl, rfl, rfl⟩

/-- C5: with a positive row count, the per-tick scroll adjustment
restores `offset ≤ sel ≤ offset + rows - 1` and is the minimal one
(offset is pulled to the selection when the selection fell above it,
pushed to `sel - rows + 1` when the selection fell below the window,
and untouched otherwise); through the drawing phase this holds for all
three panels whenever the terminal has at least 7 rows. -/
theorem C5_scroll_window :
    (∀ sel offset rows : Int, 1 ≤ rows →
      scroll_adjust sel offset rows ≤ sel ∧
      sel ≤ scroll_adjust sel offset rows + rows - 1 ∧
      (sel < offset → scroll_adjust sel offset rows = sel) ∧
      (offset + rows - 1 < sel → scroll_adjust sel offset rows = sel - rows + 1) ∧
      (offset ≤ sel → sel ≤ offset + rows - 1 → scroll_adjust sel offset rows = offset)) ∧
    (∀ (h : Nat) (s : UIState), 7 ≤ h →
      ((renderPhase h s).offset_input ≤ (s.sel_input : Int) ∧
        (s.sel_input : Int) ≤
          (renderPhase h s).offset_input + ((h : Int) - bottom_panel_height h - 3) - 1) ∧
      ((renderPhase h s).offset_output ≤ (s.sel_output : Int) ∧
        (s.sel_output : Int) ≤
          (renderPhase h s).offset_output + ((h : Int) - bottom_panel_height h - 3) - 1) ∧
      ((renderPhase h s).offset_active ≤ (s.sel_active : Int) ∧
        (s.sel_active : Int) ≤
          (renderPhase h s).offset_active + ((bottom_panel_height h : Int) - 2) - 1)) := by
  have core : ∀ sel offset rows : Int, 1 ≤ rows →
      scroll_adjust sel offset rows ≤ sel ∧
      sel ≤ scroll_adjust sel offset rows + rows - 1 ∧
      (sel < offset → scroll_adjust sel offset rows = sel) ∧
      (offset + rows - 1 < sel → scroll_adjust sel offset rows = sel - rows + 1) ∧
      (offset ≤ sel → sel ≤ offset + rows - 1 → scroll_adjust sel offset rows = offset) := by
    intro sel offset rows hrows
    unfold scroll_adjust
    split_ifs <;> refine ⟨by omega, by omega, ?_, ?_, ?_⟩ <;> intros <;> omega
  refine ⟨core, ?_⟩
  intro h s hh
  obtain ⟨hb3, hb4⟩ := bottom_panel_height_bounds h hh
  have hrows1 : (1 : Int) ≤ (h : Int) - bottom_panel_height h - 1 - 2 := by omega
  have hrows2 : (1 : Int) ≤ (h : Int) - ((h : Int) - bottom_panel_height h - 1 + 2) - 1 := by
    omega
  obtain ⟨ho1, ho2, ho3⟩ := renderPhase_offsets h s
  refine ⟨?_, ?_, ?_⟩
  · have hc := core (s.sel_input : Int) s.offset_input
      ((h : Int) - bottom_panel_height h - 1 - 2) hrows1
    rw [ho1]
    exact ⟨hc.1, by have h2 := hc.2.1; omega⟩
  · have hc := core (s.sel_output : Int) s.offset_output
      ((h : Int) - bottom_panel_height h - 1 - 2) hrows1
    rw [ho2]
    exact ⟨hc.1, by have h2 := hc.2.1; omega⟩
  · have hc := core (s.sel_active : Int) s.offset_active
      ((h : Int) - ((h : Int) - bottom_panel_height h - 1 + 2) - 1) hrows2
    rw [ho3]
    exact ⟨hc.1, by have h2 := hc.2.1; omega⟩

/-- Witness for C5 at a concrete panel geometry and height. -/
theorem C5_scroll_window_witness :
    scroll_adjust 5 0 3 ≤ 5 ∧ (renderPhase 24 initState).offset_input ≤ (initState.sel_input : Int) :=
  ⟨(C5_scroll_window.1 5 0 3 (by decide)).1, ((C5_scroll_window.2 24 initState (by decide)).1).1⟩

/-- Spec-level characterization of the `KEY_UP` branch: the focused
selection decrements by exactly 1 when positive and nothing else
changes. -/
theorem navUp_spec (t : UIState) :
    selOf (navUp t) t.focus =
      (if 0 < selOf t t.focus then selOf t t.focus - 1 else selOf t t.focus) ∧
    (∀ f, f ≠ t.focus → selOf (navUp t) f = selOf t f) ∧
    (navUp t).focus = t.focus ∧ (navUp t).status = t.status ∧
    (selOf t t.focus = 0 → navUp t = t) := by
  obtain ⟨st, fc, si, so, sa, oi, oo, oa⟩ := t
  cases fc <;>
    refine ⟨?_, fun f hf => ?_, ?_, ?_, fun hz => ?_⟩ <;>
      (try cases f) <;>
        simp_all [navUp, selOf] <;>
          split_ifs <;>
            simp_all [selOf]

/-- Spec-level characterization of the `KEY_DOWN` branch: the focused
selection increments by exactly 1 when strictly below the focused
list's last index and nothing else changes; on an empty focused list
it is a no-op. -/
theorem navDown_spec (ip op : List PortEntry) (ac : List String) (t : UIState) :
    selOf (navDown ip op ac t) t.focus =
      (if selOf t t.focus < lenOf ip op ac t.focus - 1 then selOf t t.focus + 1
       else selOf t t.focus) ∧
    (∀ f, f ≠ t.focus → selOf (navDown ip op ac t) f = selOf t f) ∧
    (navDown ip op ac t).focus = t.focus ∧ (navDown ip op ac t).status = t.status ∧
    (lenOf ip op ac t.focus = 0 → navDown ip op ac t = t) := by
  obtain ⟨st, fc, si, so, sa, oi, oo, oa⟩ := t
  cases fc <;>
    refine ⟨?_, fun f hf => ?_, ?_, ?_, fun hz => ?_⟩ <;>
      (try cases f) <;>
        simp_all [navDown, selOf, lenOf] <;>
          split_ifs <;>
            simp_all [selOf] <;>
              omega

/-- C6: pressing UP decrements the focused selection by exactly 1 when
positive, else changes nothing; pressing DOWN increments it by exactly 1
when strictly below the focused list's last index, else changes nothing;
neither touches the other panels, the focus or the status; on an empty
focused list both keys are no-ops; and on a 3-input/2-output catalog
starting from index 0 two DOWN presses reach index 2 and a third leaves
it there. -/
theorem C6_up_down (w : World) (h : Nat) (ip op : List PortEntry) (ac : List String)
    (s : UIState) :
    (∃ su sd : UIState,
      tick w h ip op ac KEY_UP s = (.ok (.cont su), []) ∧
      tick w h ip op ac KEY_DOWN s = (.ok (.cont sd), []) ∧
      selOf su s.focus =
        (if 0 < selOf s s.focus then selOf s s.focus - 1 else selOf s s.focus) ∧
      selOf sd s.focus =
        (if selOf s s.focus < lenOf ip op ac s.focus - 1 then selOf s s.focus + 1
         else selOf s s.focus) ∧
      (∀ f, f ≠ s.focus → selOf su f = selOf s f ∧ selOf sd f = selOf s f) ∧
      su.focus = s.focus ∧ sd.focus = s.focus ∧
      su.status = s.status ∧ sd.status = s.status ∧
      (lenOf ip op ac s.focus = 0 → selOf s s.focus = 0 →
        su = renderPhase h s ∧ sd = renderPhase h s)) ∧
    (∃ s1 s2 s3 : UIState,
      tick wOk 24 demo3 demo2 [] KEY_DOWN initState = (.ok (.cont s1), []) ∧
      tick wOk 24 demo3 demo2 [] KEY_DOWN s1 = (.ok (.cont s2), []) ∧
      tick wOk 24 demo3 demo2 [] KEY_DOWN s2 = (.ok (.cont s3), []) ∧
      s1.sel_input = 1 ∧ s2.sel_input = 2 ∧ s3.sel_input = 2) := by
  constructor
  · have hsel : ∀ f, selOf (renderPhase h s) f = selOf s f := by
      intro f
      cases f <;> rfl
    obtain ⟨hu1, hu2, hu3, hu4, hu5⟩ := navUp_spec (renderPhase h s)
    obtain ⟨hd1, hd2, hd3, hd4, hd5⟩ := navDown_spec ip op ac (renderPhase h s)
    refine ⟨navUp (renderPhase h s), navDown ip op ac (renderPhase h s), rfl, rfl,
      ?_, ?_, ?_, hu3, hd3, hu4, hd4, ?_⟩
    · rw [← hsel s.focus]
      exact hu1
    · rw [← hsel s.focus]
      exact hd1
    · intro f hf
      rw [← hsel f]
      exact ⟨hu2 f hf, hd2 f hf⟩
    · intro hlen hzero
      rw [← hsel s.focus] at hzero
      exact ⟨hu5 hzero, hd5 hlen⟩
  · refine ⟨{ initState with sel_input := 1 }, { initState with sel_input := 2 },
      { initState with sel_input := 2 }, by decide, by decide, by decide, rfl, rfl, rfl⟩

/-- Witness for C6 (it quantifies only over data, but the embedded
implications are exercised here): concrete UP no-op at index 0 and at
the top of a list. -/
theorem C6_up_down_witness :
    ∃ su sd : UIState,
      tick wOk 24 demo3 demo2 [] KEY_UP initState = (.ok (.cont su), []) ∧
      tick wOk 24 demo3 demo2 [] KEY_DOWN initState = (.ok (.cont sd), []) ∧
      selOf su initState.focus =
        (if 0 < selOf initState initState.focus then selOf initState initState.focus - 1
         else selOf initState initState.focus) ∧
      selOf sd initState.focus =
        (if selOf initState initState.focus < lenOf demo3 demo2 [] initState.focus - 1 then
          selOf initState initState.focus + 1
         else selOf initState initState.focus) := by
  obtain ⟨⟨su, sd, h1, h2, h3, h4, -⟩, -⟩ := C6_up_down wOk 24 demo3 demo2 [] initState
  exact ⟨su, sd, h1, h2, h3, h4⟩

/-- C3: with focus on Input or Output, pressing `c` (a) on an empty
input or output list sets a status and makes no backend call, (b) on
selections of differing backend tags sets the cannot-connect status and
makes no backend call, and (c) on selections sharing a tag invokes
exactly the matching backend's connect with the Input selection's
connection id as source and the Output selection's as destination, the
status becoming the message the adapter returned. -/
theorem C3_connect_key (w : World) (h : Nat) (ip op : List PortEntry) (ac : List String)
    (s : UIState) (hf : s.focus = Focus.input ∨ s.focus = Focus.output) :
    ((ip = [] ∨ op = []) →
      tick w h ip op ac key_c s =
        (.ok (.cont { renderPhase h s with status := "No ports available for connection." }),
          [])) ∧
    (∀ inp outp, ip.get? s.sel_input = some inp → op.get? s.sel_output = some outp →
      (inp.ptype ≠ outp.ptype →
        tick w h ip op ac key_c s =
          (.ok (.cont { renderPhase h s with
            status := "Cannot connect ports of different types." }), [])) ∧
      (inp.ptype = outp.ptype → inp.ptype = "ALSA" →
        (tick w h ip op ac key_c s).2 = [Call.alsaConnect inp.cid outp.cid] ∧
        ∀ s', (tick w h ip op ac key_c s).1 = .ok (.cont s') →
          ∃ b, alsa_connect (w (Call.alsaConnect inp.cid outp.cid)) inp.cid outp.cid =
            .ok (b, s'.status)) ∧
      (inp.ptype = outp.ptype → inp.ptype ≠ "ALSA" →
        (tick w h ip op ac key_c s).2 = [Call.jackConnect inp.cid outp.cid] ∧
        ∀ s', (tick w h ip op ac key_c s).1 = .ok (.cont s') →
          ∃ b, jack_connect (w (Call.jackConnect inp.cid outp.cid)) inp.cid outp.cid =
            .ok (b, s'.status))) := by
  have hf' : (renderPhase h s).focus = Focus.input ∨ (renderPhase h s).focus = Focus.output := hf
  constructor
  · intro hemp
    rw [tick_c_eq]
    unfold connect_action
    rw [if_pos hf', if_pos hemp]
  · intro inp outp hin hout
    have hin' : ip.get? (renderPhase h s).sel_input = some inp := hin
    have hout' : op.get? (renderPhase h s).sel_output = some outp := hout
    have hip : ip ≠ [] := by
      intro hnil
      rw [hnil] at hin
      simp at hin
    have hop : op ≠ [] := by
      intro hnil
      rw [hnil] at hout
      simp at hout
    have hne : ¬ (ip = [] ∨ op = []) := by
      rintro (h1 | h1)
      exacts [hip h1, hop h1]
    refine ⟨?_, ?_, ?_⟩
    · intro hdiff
      rw [tick_c_eq]
      unfold connect_action
      rw [if_pos hf', if_neg hne]
      simp only [hin', hout']
      rw [if_pos hdiff]
    · intro heq halsa
      have hnotne : ¬ (inp.ptype ≠ outp.ptype) := fun hc => hc heq
      rcases hres : alsa_connect (w (Call.alsaConnect inp.cid outp.cid)) inp.cid outp.cid
        with e | ⟨b, msg⟩
      · have hred : tick w h ip op ac key_c s =
            (.error e, [Call.alsaConnect inp.cid outp.cid]) := by
          rw [tick_c_eq]
          unfold connect_action
          rw [if_pos hf', if_neg hne]
          simp only [hin', hout']
          rw [if_neg hnotne, if_pos halsa, hres]
        refine ⟨by rw [hred], ?_⟩
        intro s' hs'
        rw [hred] at hs'
        simp at hs'
      · have hred : tick w h ip op ac key_c s =
            (.ok (.cont { renderPhase h s with status := msg }),
              [Call.alsaConnect inp.cid outp.cid]) := by
          rw [tick_c_eq]
          unfold connect_action
          rw [if_pos hf', if_neg hne]
          simp only [hin', hout']
          rw [if_neg hnotne, if_pos halsa, hres]
        refine ⟨by rw [hred], ?_⟩
        intro s' hs'
        rw [hred] at hs'
        simp only [Except.ok.injEq, TickOut.cont.injEq] at hs'
        refine ⟨b, ?_⟩
        rw [← hs']
    · intro heq hjack
      have hnotne : ¬ (inp.ptype ≠ outp.ptype) := fun hc => hc heq
      rcases hres : jack_connect (w (Call.jackConnect inp.cid outp.cid)) inp.cid outp.cid
        with e | ⟨b, msg⟩
      · have hred : tick w h ip op ac key_c s =
            (.error e, [Call.jackConnect inp.cid outp.cid]) := by
          rw [tick_c_eq]
          unfold connect_action
          rw [if_pos hf', if_neg hne]
          simp only [hin', hout']
          rw [if_neg hnotne, if_neg hjack, hres]
        refine ⟨by rw [hred], ?_⟩
        intro s' hs'
        rw [hred] at hs'
        simp at hs'
      · have hred : tick w h ip op ac key_c s =
            (.ok (.cont { renderPhase h s with status := msg }),
              [Call.jackConnect inp.cid outp.cid]) := by
          rw [tick_c_eq]
          unfold connect_action
          rw [if_pos hf', if_neg hne]
          simp only [hin', hout']
          rw [if_neg hnotne, if_neg hjack, hres]
        refine ⟨by rw [hred], ?_⟩
        intro s' hs'
        rw [hred] at hs'
        simp only [Except.ok.injEq, TickOut.cont.injEq] at hs'
        refine ⟨b, ?_⟩
        rw [← hs']

/-- Witness for C3: ALSA ports `16:0` and `128:0`, a successful world;
the call trace and the resulting status are the scenario's. -/
theorem C3_connect_key_witness :
    (tick wOk 24 [pA] [pB] [] key_c initState).2 = [Call.alsaConnect "16:0" "128:0"] ∧
    tick wOk 24 [pA] [pB] [] key_c initState =
      (.ok (.cont { initState with status := "Connected (ALSA)." }), [Call.alsaConnect "16:0" "128:0"]) :=
  ⟨(((C3_connect_key wOk 24 [pA] [pB] [] initState (Or.inl rfl)).2
      pA pB rfl rfl).2.1 rfl rfl).1, by decide⟩

/-- C4: with focus on Active and a selected entry whose label splits on
the separator into two tokens, pressing `d` routes to ALSA's disconnect
on the stripped tokens exactly when the source token has the
`digits:digits` shape and to JACK's otherwise; afterwards (when no
exception escaped) a selection at the last element is pulled back by
one, floored at 0. -/
theorem C4_active_disconnect (w : World) (h : Nat) (ip op : List PortEntry)
    (ac : List String) (s : UIState) (hf : s.focus = Focus.active) (conn : String)
    (hget : ac.get? s.sel_active = some conn)
    (t0 t1 : String) (hsplit : pySplit conn "->" = [t0, t1]) :
    (isAlsaStyle (pyStrip t0) = true →
      (tick w h ip op ac key_d s).2 = [Call.alsaDisconnect (pyStrip t0) (pyStrip t1)]) ∧
    (isAlsaStyle (pyStrip t0) = false →
      (tick w h ip op ac key_d s).2 = [Call.jackDisconnect (pyStrip t0) (pyStrip t1)]) ∧
    (∀ s', (tick w h ip op ac key_d s).1 = .ok (.cont s') →
      s'.sel_active =
        (if ac.length - 1 ≤ s.sel_active then s.sel_active - 1 else s.sel_active)) := by
  have hf' : (renderPhase h s).focus = Focus.active := hf
  have hget' : ac.get? (renderPhase h s).sel_active = some conn := hget
  have hacne : ¬ (ac = []) := by
    intro hnil
    rw [hnil] at hget
    simp at hget
  obtain ⟨hlt, -⟩ := List.get?_eq_some.mp hget
  refine ⟨?_, ?_, ?_⟩
  · intro halsa
    rw [tick_d_eq]
    unfold disconnect_action
    rw [if_pos hf', if_neg hacne]
    simp only [hget']
    unfold disconnect_connection
    simp only [hsplit]
    rw [if_pos halsa]
    rcases hres : alsa_disconnect
        (w (Call.alsaDisconnect (pyStrip t0) (pyStrip t1))) (pyStrip t0) (pyStrip t1)
      with e | ⟨bb, msg⟩ <;> simp
  · intro hjack
    rw [tick_d_eq]
    unfold disconnect_action
    rw [if_pos hf', if_neg hacne]
    simp only [hget']
    unfold disconnect_connection
    simp only [hsplit]
    rw [if_neg (by simp [hjack])]
    rcases hres : jack_disconnect
        (w (Call.jackDisconnect (pyStrip t0) (pyStrip t1))) (pyStrip t0) (pyStrip t1)
      with e | ⟨bb, msg⟩ <;> simp
  · intro s' hs'
    rw [tick_d_eq] at hs'
    unfold disconnect_action at hs'
    rw [if_pos hf', if_neg hacne] at hs'
    simp only [hget'] at hs'
    unfold disconnect_connection at hs'
    simp only [hsplit] at hs'
    by_cases halsa : isAlsaStyle (pyStrip t0)
    · rw [if_pos halsa] at hs'
      rcases hres : alsa_disconnect
          (w (Call.alsaDisconnect (pyStrip t0) (pyStrip t1))) (pyStrip t0) (pyStrip t1)
        with e | ⟨bb, msg⟩
      · rw [hres] at hs'
        simp at hs'
      · rw [hres] at hs'
        simp only [Except.ok.injEq, TickOut.cont.injEq] at hs'
        split_ifs at hs' with hcl
        · have hcl2 : ac.length - 1 ≤ s.sel_active := hcl
          rw [if_pos hcl2, ← hs']
          show ac.length - 2 = s.sel_active - 1
          omega
        · have hcl2 : ¬ (ac.length - 1 ≤ s.sel_active) := hcl
          rw [if_neg hcl2, ← hs']
          rfl
    · rw [if_neg halsa] at hs'
      rcases hres : jack_disconnect
          (w (Call.jackDisconnect (pyStrip t0) (pyStrip t1))) (pyStrip t0) (pyStrip t1)
        with e | ⟨bb, msg⟩
      · rw [hres] at hs'
        simp at hs'
      · rw [hres] at hs'
        simp only [Except.ok.injEq, TickOut.cont.injEq] at hs'
        split_ifs at hs' with hcl
        · have hcl2 : ac.length - 1 ≤ s.sel_active := hcl
          rw [if_pos hcl2, ← hs']
          show ac.length - 2 = s.sel_active - 1
          omega
        · have hcl2 : ¬ (ac.length - 1 ≤ s.sel_active) := hcl
          rw [if_neg hcl2, ← hs']
          rfl

/-- Witness for C4: one ALSA-shaped connection, successful world; the
trace is the ALSA disconnect and the selection is pulled back to 0. -/
theorem C4_active_disconnect_witness :
    (tick wOk 24 [] [] ["16:0 -> 128:0"] key_d { initState with focus := Focus.active }).2 =
      [Call.alsaDisconnect "16:0" "128:0"] :=
  (C4_active_disconnect wOk 24 [] [] ["16:0 -> 128:0"]
    { initState with focus := Focus.active } rfl "16:0 -> 128:0" rfl "16:0 " " 128:0"
    (by decide)).1 (by decide)

/-- C7: a `c` or `d` press with focus on Input or Output never invokes a
backend on two selections of differing backend tags: every invocation it
performs carries the connection ids of the two selections, which share
one tag (incompatible or missing selections produce no invocation). -/
theorem C7_no_cross_backend (w : World) (h : Nat) (ip op : List PortEntry)
    (ac : List String) (k : Nat) (s : UIState) (hk : k = key_c ∨ k = key_d)
    (hf : s.focus = Focus.input ∨ s.focus = Focus.output) :
    ∀ c ∈ (tick w h ip op ac k s).2, ∃ inp outp,
      ip.get? s.sel_input = some inp ∧ op.get? s.sel_output = some outp ∧
      inp.ptype = outp.ptype ∧ callArgs c = (inp.cid, outp.cid) := by
  have hf' : (renderPhase h s).focus = Focus.input ∨ (renderPhase h s).focus = Focus.output := hf
  rcases hk with rfl | rfl
  · rw [tick_c_eq]
    unfold connect_action
    rw [if_pos hf']
    by_cases hemp : ip = [] ∨ op = []
    · rw [if_pos hemp]
      intro c hc
      simp at hc
    · rw [if_neg hemp]
      rcases hin : ip.get? (renderPhase h s).sel_input with - | inp
      · simp only [hin]
        intro c hc
        simp at hc
      · rcases hout : op.get? (renderPhase h s).sel_output with - | outp
        · simp only [hin, hout]
          intro c hc
          simp at hc
        · simp only [hin, hout]
          by_cases hne : inp.ptype ≠ outp.ptype
          · rw [if_pos hne]
            intro c hc
            simp at hc
          · have heq : inp.ptype = outp.ptype := not_not.mp hne
            rw [if_neg hne]
            by_cases halsa : inp.ptype = "ALSA"
            · rw [if_pos halsa]
              rcases hres : alsa_connect (w (Call.alsaConnect inp.cid outp.cid)) inp.cid outp.cid
                  with e | ⟨bb, msg⟩ <;>
                · intro c hc
                  simp at hc
                  subst hc
                  exact ⟨inp, outp, hin, hout, heq, rfl⟩
            · rw [if_neg halsa]
              rcases hres : jack_connect (w (Call.jackConnect inp.cid outp.cid)) inp.cid outp.cid
                  with e | ⟨bb, msg⟩ <;>
                · intro c hc
                  simp at hc
                  subst hc
                  exact ⟨inp, outp, hin, hout, heq, rfl⟩
  · rw [tick_d_eq]
    unfold disconnect_action
    have hfa : ¬ ((renderPhase h s).focus = Focus.active) := by
      intro hx
      have hx' : s.focus = Focus.active := hx
      rcases hf with h1 | h1 <;> rw [h1] at hx' <;> simp at hx'
    rw [if_neg hfa]
    by_cases hemp : ip = [] ∨ op = []
    · rw [if_pos hemp]
      intro c hc
      simp at hc
    · rw [if_neg hemp]
      rcases hin : ip.get? (renderPhase h s).sel_input with - | inp
      · simp only [hin]
        intro c hc
        simp at hc
      · rcases hout : op.get? (renderPhase h s).sel_output with - | outp
        · simp only [hin, hout]
          intro c hc
          simp at hc
        · simp only [hin, hout]
          by_cases hne : inp.ptype ≠ outp.ptype
          · rw [if_pos hne]
            intro c hc
            simp at hc
          · have heq : inp.ptype = outp.ptype := not_not.mp hne
            rw [if_neg hne]
            by_cases halsa : inp.ptype = "ALSA"
            · rw [if_pos halsa]
              rcases hres : alsa_disconnect
                  (w (Call.alsaDisconnect inp.cid outp.cid)) inp.cid outp.cid
                  with e | ⟨bb, msg⟩ <;>
                · intro c hc
                  simp at hc
                  subst hc
                  exact ⟨inp, outp, hin, hout, heq, rfl⟩
            · rw [if_neg halsa]
              rcases hres : jack_disconnect
                  (w (Call.jackDisconnect inp.cid outp.cid)) inp.cid outp.cid
                  with e | ⟨bb, msg⟩ <;>
                · intro c hc
                  simp at hc
                  subst hc
                  exact ⟨inp, outp, hin, hout, heq, rfl⟩

/-- Witness for C7 on a concrete ALSA pair with matching tags. -/
theorem C7_no_cross_backend_witness :
    ∃ inp outp, ([pA] : List PortEntry).get? initState.sel_input = some inp ∧
      ([pB] : List PortEntry).get? initState.sel_output = some outp ∧
      inp.ptype = outp.ptype ∧ callArgs (Call.alsaConnect "16:0" "128:0") = (inp.cid, outp.cid) :=
  C7_no_cross_backend wOk 24 [pA] [pB] [] key_c initState (Or.inl rfl) (Or.inl rfl)
    (Call.alsaConnect "16:0" "128:0") (by decide)

/-- Source `KEY_UP` never increases any selection. -/
theorem navUp_bounds (t : UIState) :
    (navUp t).sel_input ≤ t.sel_input ∧ (navUp t).sel_output ≤ t.sel_output ∧
    (navUp t).sel_active ≤ t.sel_active := by
  unfold navUp
  split_ifs <;> simp

/-- Source `KEY_DOWN` keeps every selection inside `max 1 length` of its list. -/
theorem navDown_preserves (ip op : List PortEntry) (ac : List String) (t : UIState)
    (a1 : t.sel_input < max 1 ip.length) (a2 : t.sel_output < max 1 op.length)
    (a3 : t.sel_active < max 1 ac.length) :
    (navDown ip op ac t).sel_input < max 1 ip.length ∧
    (navDown ip op ac t).sel_output < max 1 op.length ∧
    (navDown ip op ac t).sel_active < max 1 ac.length := by
  unfold navDown
  split_ifs <;> simp_all <;> omega

/-- C1 fails as stated: the loop never clamps a selection index against
a freshly rebuilt catalog.  The state with `sel_input = 1` is reachable
(two ports, one DOWN); when the rebuild then yields a one-port input
list, the index violates `selectedIndex < max 1 length` and the next
`c` press indexes out of range (`IndexError` escapes) instead of using
a clamped index. -/
theorem C1_counterexample :
    Reachable stateAfterDown ∧
    ¬ (stateAfterDown.sel_input < max 1 (envInputs envShrunk).length) ∧
    (tickEnv envShrunk stateAfterDown).1 = Except.error "IndexError" :=
  ⟨Reachable.step envGrow initState stateAfterDown [] Reachable.init (by decide),
   by decide, by decide⟩

/-- C1 amended: the initial selections are 0, and any single loop
iteration that completes without an exception preserves
`selectedIndex < max 1 length` with respect to that iteration's own
lists; but no clamp is applied on rebuild, so a rebuild that shrinks a
list below the current selection leaves the index out of range (see the
counterexample). -/
theorem C1_amended_in_range (w : World) (h : Nat) (ip op : List PortEntry)
    (ac : List String) (k : Nat) (s s' : UIState) (calls : List Call)
    (h1 : s.sel_input < max 1 ip.length) (h2 : s.sel_output < max 1 op.length)
    (h3 : s.sel_active < max 1 ac.length)
    (hstep : tick w h ip op ac k s = (.ok (.cont s'), calls)) :
    s'.sel_input < max 1 ip.length ∧ s'.sel_output < max 1 op.length ∧
    s'.sel_active < max 1 ac.length := by
  by_cases hq : k = key_q
  · subst hq
    have hstep' : (Except.ok (TickOut.quit (renderPhase h s)), ([] : List Call)) =
        (.ok (.cont s'), calls) := hstep
    simp at hstep'
  by_cases hkr : k = key_r
  · subst hkr
    have hstep' : (Except.ok (TickOut.cont
        { renderPhase h s with status := "Views refreshed." }), ([] : List Call)) =
        (.ok (.cont s'), calls) := hstep
    simp only [Prod.mk.injEq, Except.ok.injEq, TickOut.cont.injEq] at hstep'
    obtain ⟨hs2, -⟩ := hstep'
    subst hs2
    exact ⟨h1, h2, h3⟩
  by_cases htab : k = key_tab
  · subst htab
    have hstep' : (Except.ok (TickOut.cont
        { renderPhase h s with focus := nextFocus (renderPhase h s).focus }), ([] : List Call)) =
        (.ok (.cont s'), calls) := hstep
    simp only [Prod.mk.injEq, Except.ok.injEq, TickOut.cont.injEq] at hstep'
    obtain ⟨hs2, -⟩ := hstep'
    subst hs2
    exact ⟨h1, h2, h3⟩
  by_cases hup : k = KEY_UP
  · subst hup
    have hstep' : (Except.ok (TickOut.cont (navUp (renderPhase h s))), ([] : List Call)) =
        (.ok (.cont s'), calls) := hstep
    simp only [Prod.mk.injEq, Except.ok.injEq, TickOut.cont.injEq] at hstep'
    obtain ⟨hs2, -⟩ := hstep'
    subst hs2
    obtain ⟨b1, b2, b3⟩ := navUp_bounds (renderPhase h s)
    have e1 : (renderPhase h s).sel_input = s.sel_input := rfl
    have e2 : (renderPhase h s).sel_output = s.sel_output := rfl
    have e3 : (renderPhase h s).sel_active = s.sel_active := rfl
    rw [e1] at b1
    rw [e2] at b2
    rw [e3] at b3
    exact ⟨by omega, by omega, by omega⟩
  by_cases hdn : k = KEY_DOWN
  · subst hdn
    have hstep' : (Except.ok (TickOut.cont (navDown ip op ac (renderPhase h s))),
        ([] : List Call)) = (.ok (.cont s'), calls) := hstep
    simp only [Prod.mk.injEq, Except.ok.injEq, TickOut.cont.injEq] at hstep'
    obtain ⟨hs2, -⟩ := hstep'
    subst hs2
    exact navDown_preserves ip op ac (renderPhase h s) h1 h2 h3
  by_cases hc : k = key_c
  · subst hc
    have hstep' : connect_action w ip op (renderPhase h s) = (.ok (.cont s'), calls) := hstep
    unfold connect_action at hstep'
    repeat' split at hstep'
    all_goals
      first
        | (simp only [Prod.mk.injEq, Except.ok.injEq, TickOut.cont.injEq] at hstep'
           obtain ⟨hs2, -⟩ := hstep'
           subst hs2
           exact ⟨h1, h2, h3⟩)
        | simp at hstep'
  by_cases hd : k = key_d
  · subst hd
    have hstep' : disconnect_action w ip op ac (renderPhase h s) = (.ok (.cont s'), calls) :=
      hstep
    unfold disconnect_action at hstep'
    repeat' split at hstep'
    all_goals try (simp only [] at hstep'; split at hstep')
    all_goals
      first
        | (simp only [Prod.mk.injEq, Except.ok.injEq, TickOut.cont.injEq] at hstep'
           obtain ⟨hs2, -⟩ := hstep'
           subst hs2
           exact ⟨h1, h2, h3⟩)
        | (simp only [Prod.mk.injEq, Except.ok.injEq, TickOut.cont.injEq] at hstep'
           obtain ⟨hs2, -⟩ := hstep'
           subst hs2
           refine ⟨h1, h2, ?_⟩
           show ac.length - 2 < max 1 ac.length
           have hanil : ¬ (ac = []) := by assumption
           have hlen0 : ac.length ≠ 0 := fun hz => hanil (List.length_eq_zero.mp hz)
           omega)
        | simp at hstep'
  unfold tick handleKey at hstep
  rw [if_neg hq, if_neg hkr, if_neg htab, if_neg hup, if_neg hdn, if_neg hc, if_neg hd] at hstep
  simp only [Prod.mk.injEq, Except.ok.injEq, TickOut.cont.injEq] at hstep
  obtain ⟨hs2, -⟩ := hstep
  subst hs2
  exact ⟨h1, h2, h3⟩

/-- Witness for C1 (amended): a completed DOWN iteration from the
initial state on a one-port catalog stays in range. -/
theorem C1_amended_in_range_witness :
    (initState.sel_input < max 1 ([pA] : List PortEntry).length ∧
     initState.sel_output < max 1 ([pB] : List PortEntry).length ∧
     initState.sel_active < max 1 ([] : List String).length) ∧
    (initState.sel_input < max 1 ([pA] : List PortEntry).length ∧
     initState.sel_output < max 1 ([pB] : List PortEntry).length ∧
     initState.sel_active < max 1 ([] : List String).length) :=
  ⟨⟨by decide, by decide, by decide⟩,
   C1_amended_in_range wOk 24 [pA] [pB] [] KEY_DOWN initState initState []
     (by decide) (by decide) (by decide) (by decide)⟩
